import Mathlib

/-!
Shallow embedding of the index-router repository (src/lib/router.js).

The router is a class holding three cached promises created in the
constructor (manifest, config, indexes).  We model:
  * JSON objects as association lists of string keys (`JObj`),
  * JavaScript `Object.assign` as `jsAssign` (later argument wins),
  * the DOM (jsdom is a black-box collaborator) as a flat list of
    elements with tag, attribute list and text content,
  * each upstream fetch outcome by an `Upstream` record: `none` models a
    rejected fetch-and-parse, `some v` the parsed body,
  * the cached-promise state of one Router instance as `RouterState`,
    produced once by `Router.construct` (the constructor),
  * the URLs requested while constructing as `Router.constructionFetches`;
    `route` in the source never calls `_fetch` and never reassigns the
    promise fields, which `routeCall` reflects by emitting no URL and
    returning the state unchanged.
-/

namespace IndexRouter

/-- JSON-like values appearing in the configs handled by the router. -/
inductive JVal where
  | str : String → JVal
  | num : Int → JVal
  | arr : List String → JVal
deriving DecidableEq, Repr

/-- A JSON object: association list from keys to values. -/
abbrev JObj := List (String × JVal)

/-- First-match association-list lookup (objects have unique keys). -/
def alookup {β : Type} (k : String) : List (String × β) → Option β
  | [] => none
  | p :: rest => if p.1 = k then some p.2 else alookup k rest

/-- JavaScript `Object.assign(\x7b...base\x7d, upd)`: keys of `base` keep
their position but take `upd`'s value when present; keys only in `upd`
are appended in order. -/
def jsAssign {β : Type} (base upd : List (String × β)) : List (String × β) :=
  base.map (fun p => (p.1, (alookup p.1 upd).getD p.2)) ++
    upd.filter (fun p => (alookup p.1 base).isNone)

/-- `Promise.all`: succeeds with the list of results iff every entry
succeeded. -/
def seqOption {α : Type} : List (Option α) → Option (List α)
  | [] => some []
  | none :: _ => none
  | some x :: rest => (seqOption rest).map (fun l => x :: l)

/-- JavaScript `Array.prototype.join` (callers pre-convert holes to ""). -/
def jsJoin (sep : String) : List String → String
  | [] => ""
  | x :: rest => rest.foldl (fun acc y => acc ++ sep ++ y) x

/-- Prefix test on character lists: does the second list start with the
first? -/
def charsPrefix : List Char → List Char → Bool
  | [], _ => true
  | _ :: _, [] => false
  | c :: cs, d :: ds => c == d && charsPrefix cs ds

/-- `s.startsWith pre` over the underlying character lists. -/
def strStartsWith (s pre : String) : Bool :=
  charsPrefix pre.data s.data

/-- `s.endsWith suf` over the underlying character lists. -/
def strEndsWith (s suf : String) : Bool :=
  charsPrefix suf.data.reverse s.data.reverse

/-- ASCII lower-casing over the underlying character list. -/
def strToLower (s : String) : String :=
  ⟨s.data.map Char.toLower⟩

/-- Does `pat` occur contiguously in the second list? -/
def hasSub (pat : List Char) : List Char → Bool
  | [] => charsPrefix pat []
  | c :: rest => charsPrefix pat (c :: rest) || hasSub pat rest

/-- Minimal JSON string escaping as done by `JSON.stringify`. -/
def jstrEscape (s : String) : String :=
  s.data.foldl (fun acc c =>
    acc ++ (if c = '"' then "\\\"" else if c = '\\' then "\\\\" else String.singleton c)) ""

/-- Serialization of one JSON value. -/
def JVal.serialize : JVal → String
  | .str s => "\"" ++ jstrEscape s ++ "\""
  | .num n => toString n
  | .arr xs => "[" ++ jsJoin "," (xs.map (fun s => "\"" ++ jstrEscape s ++ "\"")) ++ "]"

/-- `JSON.stringify` on an object. -/
def jsonStringify (o : JObj) : String :=
  "\x7b" ++ jsJoin "," (o.map (fun p => "\"" ++ jstrEscape p.1 ++ "\":" ++ p.2.serialize)) ++ "\x7d"

/-! ## DOM model (jsdom treated as a black-box document builder) -/

/-- One DOM element: tag name (lower-case), attributes, text content. -/
structure Element where
  tag : String
  attrs : List (String × String)
  content : String
deriving DecidableEq, Repr

/-- A parsed document: its elements in document order. -/
structure Doc where
  elements : List Element
deriving DecidableEq, Repr

/-- `element.getAttribute(a)`: the attribute's value, `none` for JS null. -/
def getAttribute (el : Element) (a : String) : Option String :=
  alookup a el.attrs

/-- JavaScript string coercion of a nullable string (`null` prints "null"),
as performed by `RegExp.test` and by `+` concatenation. -/
def jsString : Option String → String
  | some s => s
  | none => "null"

/-- `element.setAttribute(k, v)`: update in place when present, else append. -/
def setAttribute (el : Element) (k v : String) : Element :=
  if (alookup k el.attrs).isSome then
    { el with attrs := el.attrs.map (fun p => if p.1 = k then (k, v) else p) }
  else
    { el with attrs := el.attrs ++ [(k, v)] }

/-- `element.removeAttribute(k)`. -/
def removeAttribute (el : Element) (k : String) : Element :=
  { el with attrs := el.attrs.filter (fun p => !decide (p.1 = k)) }

/-! ## The four regular expressions of router.js -/

/-- A character matching `[A-Za-z0-9]`. -/
def isAlnumChar (c : Char) : Bool :=
  c.isAlpha || c.isDigit

/-- `pathPattern = /^\/([A-Za-z0-9]+)(\/.*)?$/` : on success returns the
app id (group 1) and the optional trailing part starting with '/'
(group 2, `none` when absent). -/
def pathPattern (path : String) : Option (String × Option String) :=
  if strStartsWith path "/" then
    let rest := path.data.drop 1
    let appId : String := ⟨rest.takeWhile isAlnumChar⟩
    let tail : String := ⟨rest.dropWhile isAlnumChar⟩
    if appId = "" then none
    else if tail = "" then some (appId, none)
    else if strStartsWith tail "/" then some (appId, some tail)
    else none
  else none

/-- `appcachePattern = /^.*\.appcache$/i` : `.` does not cross line
terminators, the suffix is matched case-insensitively. -/
def appcachePattern_test (s : String) : Bool :=
  strEndsWith (strToLower s) ".appcache" &&
    !((s.data.take (s.data.length - 9)).contains '\n') &&
    !((s.data.take (s.data.length - 9)).contains '\r')

/-- `linkPattern = /^(?!(?:https?:)?\/)/i` : true (relocate) unless the
value starts with "/", "http:/" or "https:/" (case-insensitive). -/
def linkPattern_test (s : String) : Bool :=
  !(strStartsWith s "/" || strStartsWith (strToLower s) "http:/" ||
      strStartsWith (strToLower s) "https:/")

/-- Whether `pat` occurs somewhere in `s` (pat nonempty). -/
def containsSub (s pat : String) : Bool :=
  hasSub pat.data s.data

/-- `configSrcPattern = /.*\/config\.js/` : unanchored, so the test holds
iff the value contains "/config.js" anywhere. -/
def configSrcPattern_test (s : String) : Bool :=
  containsSub s "/config.js"

/-! ## Router data -/

/-- Construction parameters of `new Router(assetsUrl, apiUrl)`. -/
structure Router where
  assetsUrl : String
  apiUrl : String
deriving DecidableEq, Repr

/-- The parsed `manifest.json` body. -/
structure Manifest where
  apps : List String
  default : String
  config : JObj
deriving DecidableEq, Repr

/-- Outcomes of the upstream GETs (plus body parsing): `none` models a
rejected fetch, `some` the parsed body.  `index` is keyed by app id;
the URL requested for app `a` is `<assetsUrl><a>/index.html`. -/
structure Upstream where
  manifest : Option Manifest
  config : Option JObj
  index : String → Option String

/-- The three cached promises of one Router instance, as settled values
(`none` = the cached promise is rejected). -/
structure RouterState where
  manifestP : Option Manifest
  configP : Option JObj
  indexesP : Option (List (String × String))
deriving DecidableEq

/-- Options after the `Object.assign(\x7bclientAge: 60, cacheAge: 300\x7d, options)`
defaulting at the top of `route`. -/
structure RouteOptions where
  clientAge : Nat
  cacheAge : Option Nat
deriving DecidableEq, Repr

/-- The defaults applied when no options are supplied. -/
def defaultOptions : RouteOptions :=
  { clientAge := 60, cacheAge := some 300 }

/-- An HTTP response envelope as node-fetch resolves it: any status,
successful or not, resolves (only transport errors reject). -/
structure HttpResponse where
  ok : Bool
  status : Nat
  bodyText : String
deriving DecidableEq, Repr

/-- `Router._fetch(url)`: `const res = await fetch(url); return options.json
? res.json() : res.text()` — a single GET whose response body is returned
whatever `res.ok`/`res.status` are; `none` (transport error) rejects. -/
def fetchOne (resp : Option HttpResponse) : Option String :=
  resp.map HttpResponse.bodyText

/-- The GET requests one `_fetch(url)` call performs: exactly one, there
is no retry loop in the source. -/
def fetchOneTrace (url : String) : List String :=
  [url]

/-- A generic HTTP response used by route results. -/
structure Response where
  statusCode : Nat
  headers : List (String × String)
  body : Option String
deriving DecidableEq, Repr

def Router.manifestUrl (r : Router) : String :=
  r.assetsUrl ++ "manifest.json"

def Router.configUrl (r : Router) : String :=
  r.apiUrl ++ "config.json"

def Router.indexUrl (r : Router) (app : String) : String :=
  r.assetsUrl ++ app ++ "/index.html"

/-- `fetchManifest`: `_fetch(assetsUrl + 'manifest.json', json)`. -/
def Router.fetchManifest (r : Router) (u : Upstream) : Option Manifest :=
  u.manifest

/-- The `Object.assign(\x7bassets_url, api_url\x7d, config)` merge done by
`fetchConfig` on a successfully downloaded config body. -/
def Router.mergedConfig (r : Router) (config : JObj) : JObj :=
  jsAssign [("assets_url", JVal.str r.assetsUrl), ("api_url", JVal.str r.apiUrl)] config

/-- `fetchConfig`: download `<apiUrl>config.json` and merge it over the
injected defaults. -/
def Router.fetchConfig (r : Router) (u : Upstream) : Option JObj :=
  u.config.map r.mergedConfig

/-- `fetchIndexes(manifest)`: `Promise.all` over one index fetch per app of
the manifest, then collected into a map keyed by app id. -/
def Router.fetchIndexes (r : Router) (u : Upstream) (manifest : Manifest) :
    Option (List (String × String)) :=
  seqOption (manifest.apps.map (fun app => (u.index app).map (fun data => (app, data))))

/-- The constructor: starts the manifest and config fetches, and chains
the index fetches on the manifest promise. -/
def Router.construct (r : Router) (u : Upstream) : RouterState :=
  { manifestP := r.fetchManifest u
    configP := r.fetchConfig u
    indexesP :=
      match r.fetchManifest u with
      | some m => r.fetchIndexes u m
      | none => none }

/-- Every URL requested by the constructor's promise chain: the manifest,
the config, and — once the manifest resolves — one index per listed app. -/
def Router.constructionFetches (r : Router) (u : Upstream) : List String :=
  [r.manifestUrl, r.configUrl] ++
    (match u.manifest with
     | some m => m.apps.map r.indexUrl
     | none => [])

/-! ## Cache-Control construction and responses -/

/-- `_createCacheResponse(clientAge, cacheAge)`: builds the two candidate
directives (`max-age`, `s-max-age`), maps an undefined value to a JS
`undefined` array hole (which `join` renders as the empty string), and
joins with ", ". -/
def createCacheResponse (clientAge : Nat) (cacheAge : Option Nat) : String :=
  jsJoin ", "
    [ "max-age=" ++ toString clientAge,
      match cacheAge with
      | some v => "s-max-age=" ++ toString v
      | none => "" ]

/-- The 404 JSON responses of `_route` (body message varies by cause). -/
def notFoundResponse (msg : String) (options : RouteOptions) : Response :=
  { statusCode := 404
    headers := [("Content-Type", "application/json"),
                ("Cache-Control", createCacheResponse options.clientAge none)]
    body := some ("\x7b\"error\":\"" ++ msg ++ "\"\x7d") }

/-- The 301 responses of `_route`. -/
def redirectResponse (location : String) (options : RouteOptions) : Response :=
  { statusCode := 301
    headers := [("Location", location),
                ("Cache-Control", createCacheResponse options.clientAge options.cacheAge)]
    body := none }

/-- The catch-all 500 response assembled in `route`'s catch block. -/
def internalErrorResponse : Response :=
  { statusCode := 500
    headers := [("Content-Type", "application/json"),
                ("Cache-Control", createCacheResponse 10 none)]
    body := some ("\x7b\"error\":\"Internal error\"\x7d") }

/-! ## HTML transformer -/

/-- The body of the `relocate` loop for one element: elements of the
requested tag whose attribute value (JS-coerced, so a missing attribute
reads as "null") passes `linkPattern` get the attribute set to
`assetsUrl + value`. -/
def relocateElement (r : Router) (tag attr : String) (el : Element) : Element :=
  if el.tag = tag then
    let src := jsString (getAttribute el attr)
    if linkPattern_test src then setAttribute el attr (r.assetsUrl ++ src) else el
  else el

/-- `relocate(document, tag, attr)`. -/
def relocate (r : Router) (d : Doc) (tag attr : String) : Doc :=
  ⟨d.elements.map (relocateElement r tag attr)⟩

/-- The `_app_config = <json>;` statement injected by `patchConfig`. -/
def configAssignment (config : JObj) : String :=
  "_app_config = " ++ jsonStringify config ++ ";"

/-- The body of the `patchConfig` pass for one element: script elements
whose (JS-coerced) src passes `configSrcPattern` lose their src and get
the assignment statement as content. -/
def patchElement (configString : String) (el : Element) : Element :=
  if el.tag = "script" && configSrcPattern_test (jsString (getAttribute el "src")) then
    { removeAttribute el "src" with content := configString }
  else el

/-- `patchConfig(app, document, config)` (the app argument is unused in
the source as well). -/
def patchConfig (app : String) (d : Doc) (config : JObj) : Doc :=
  ⟨d.elements.map (patchElement (configAssignment config))⟩

/-- `transform(app, html, config)` on an already parsed document:
relocate link hrefs, relocate script srcs, then patch the config. -/
def transform (r : Router) (app : String) (d : Doc) (config : JObj) : Doc :=
  patchConfig app (relocate r (relocate r d "link" "href") "script" "src") config

/-- The per-element composition the three passes amount to. -/
def transformElement (r : Router) (config : JObj) (el : Element) : Element :=
  patchElement (configAssignment config)
    (relocateElement r "script" "src" (relocateElement r "link" "href" el))

/-! ## The route state machine -/

/-- `getSiteIndex(app)`: await the cached indexes promise, look the app
up, and throw when the entry is missing or falsy (the empty string). -/
def getSiteIndex (st : RouterState) (app : String) : Option String :=
  match st.indexesP with
  | none => none
  | some indexes =>
    match alookup app indexes with
    | none => none
    | some s => if s = "" then none else some s

/-- The `Object.assign(\x7btarget: ['/'+app+'/']\x7d, config, manifest.config)`
merge of the content branch. -/
def effectiveConfig (app : String) (config : JObj) (manifestConfig : JObj) : JObj :=
  jsAssign (jsAssign [("target", JVal.arr ["/" ++ app ++ "/"])] config) manifestConfig

/-- `_route(path, options)`: `none` models a thrown error (a rejected
awaited promise), which `route` converts into the 500 response.  `parse`
and `ser` stand for the black-box jsdom parser and serializer. -/
def routeAux (r : Router) (parse : String → Doc) (ser : Doc → String)
    (st : RouterState) (path : String) (options : RouteOptions) : Option Response :=
  match st.manifestP with
  | none => none
  | some manifest =>
    if path = "/" then
      some (redirectResponse ("/" ++ manifest.default ++ "/") options)
    else
      match pathPattern path with
      | none => some (notFoundResponse "Invalid path" options)
      | some (app, appPath) =>
        if manifest.apps.contains app then
          match appPath with
          | none => some (redirectResponse ("/" ++ app ++ "/") options)
          | some ap =>
            if appcachePattern_test ap then
              some (notFoundResponse "Application cache not found" options)
            else
              match getSiteIndex st app, st.configP with
              | some html, some config =>
                some { statusCode := 200
                       headers := [("Content-Type", "text/html"),
                                   ("Cache-Control",
                                     createCacheResponse options.clientAge options.cacheAge)]
                       body := some (ser (transform r app (parse html)
                                        (effectiveConfig app config manifest.config))) }
              | _, _ => none
        else
          some (notFoundResponse "Application not found" options)

/-- `route(path, options)`: `_route` with its try/catch. -/
def route (r : Router) (parse : String → Doc) (ser : Doc → String)
    (st : RouterState) (path : String) (options : RouteOptions) : Response :=
  match routeAux r parse ser st path options with
  | some resp => resp
  | none => internalErrorResponse

/-- One `route` call observed with the instance state and the upstream
GETs it performs: the source's `route`/`_route` only ever await the
promises stored by the constructor — they never reassign a promise field
and never call `_fetch` — so the state comes back unchanged and the list
of requested URLs is empty. -/
def routeCall (r : Router) (parse : String → Doc) (ser : Doc → String)
    (st : RouterState) (call : String × RouteOptions) :
    Response × RouterState × List String :=
  (route r parse ser st call.1 call.2, st, [])

/-- Run a sequence of route calls on one instance, collecting responses,
the final state and every upstream URL requested along the way. -/
def runRoutes (r : Router) (parse : String → Doc) (ser : Doc → String) :
    RouterState → List (String × RouteOptions) → List Response × RouterState × List String
  | st, [] => ([], st, [])
  | st, c :: cs =>
    let step := routeCall r parse ser st c
    let rest := runRoutes r parse ser step.2.1 cs
    (step.1 :: rest.1, rest.2.1, step.2.2 ++ rest.2.2)

/-- All upstream GETs over an instance lifetime: those of the constructor
followed by those of the route calls. -/
def lifetimeFetches (r : Router) (u : Upstream) (parse : String → Doc) (ser : Doc → String)
    (calls : List (String × RouteOptions)) : List String :=
  r.constructionFetches u ++ (runRoutes r parse ser (r.construct u) calls).2.2

/-! ## Helper lemmas -/

theorem alookup_append {β : Type} (k : String) (l₁ l₂ : List (String × β)) :
    alookup k (l₁ ++ l₂) =
      (match alookup k l₁ with
       | some v => some v
       | none => alookup k l₂) := by
  induction l₁ with
  | nil => simp [alookup]
  | cons p t ih =>
    by_cases hp : p.1 = k
    · simp [alookup, hp]
    · simp [alookup, hp, ih]

theorem alookup_assign_map {β : Type} (base upd : List (String × β)) (k : String) :
    alookup k (base.map (fun p => (p.1, (alookup p.1 upd).getD p.2))) =
      (alookup k base).map (fun v => (alookup k upd).getD v) := by
  induction base with
  | nil => simp [alookup]
  | cons p t ih =>
    by_cases hp : p.1 = k
    · subst hp
      simp [alookup]
    · simp [alookup, hp, ih]

theorem alookup_assign_filter {β : Type} (base upd : List (String × β)) (k : String) :
    alookup k (upd.filter (fun p => (alookup p.1 base).isNone)) =
      (if (alookup k base).isSome then none else alookup k upd) := by
  induction upd with
  | nil => simp [alookup]
  | cons p t ih =>
    by_cases hp : p.1 = k
    · subst hp
      cases hb : alookup p.1 base with
      | some v => simp [List.filter, alookup, hb, ih]
      | none => simp [List.filter, alookup, hb]
    · cases hc : (alookup p.1 base).isNone with
      | true => simp [List.filter, alookup, hc, hp, ih]
      | false => simp [List.filter, alookup, hc, hp, ih]

/-- Lookup semantics of the `Object.assign` model: the updating object's
value wins, the base object's value is the fallback. -/
theorem alookup_jsAssign {β : Type} (base upd : List (String × β)) (k : String) :
    alookup k (jsAssign base upd) =
      (match alookup k base with
       | some v => some ((alookup k upd).getD v)
       | none => alookup k upd) := by
  unfold jsAssign
  rw [alookup_append, alookup_assign_map, alookup_assign_filter]
  cases hb : alookup k base <;> simp [hb]

theorem alookup_setAttribute_self (el : Element) (k v : String) :
    alookup k (setAttribute el k v).attrs = some v := by
  unfold setAttribute
  cases hs : (alookup k el.attrs).isSome with
  | false =>
    simp only [hs, Bool.false_eq_true, if_false]
    rw [alookup_append]
    have hnone : alookup k el.attrs = none := by
      cases h : alookup k el.attrs
      · rfl
      · rw [h] at hs; simp at hs
    simp [hnone, alookup]
  | true =>
    simp only [hs, if_true]
    have : ∀ l : List (String × String), (alookup k l).isSome = true →
        alookup k (l.map (fun p => if p.1 = k then (k, v) else p)) = some v := by
      intro l
      induction l with
      | nil => intro h; simp [alookup] at h
      | cons p t ih =>
        intro h
        by_cases hp : p.1 = k
        · simp [alookup, hp]
        · simp only [alookup, hp, if_false] at h
          simp [alookup, hp, ih h]
    exact this el.attrs hs

theorem alookup_setAttribute_ne (el : Element) (k v a : String) (h : a ≠ k) :
    alookup a (setAttribute el k v).attrs = alookup a el.attrs := by
  have hka : ¬ k = a := fun hh => h hh.symm
  unfold setAttribute
  cases hs : (alookup k el.attrs).isSome with
  | false =>
    simp only [hs, Bool.false_eq_true, if_false]
    rw [alookup_append]
    cases hl : alookup a el.attrs <;> simp [hl, alookup, hka]
  | true =>
    simp only [hs, if_true]
    have : ∀ l : List (String × String),
        alookup a (l.map (fun p => if p.1 = k then (k, v) else p)) = alookup a l := by
      intro l
      induction l with
      | nil => simp [alookup]
      | cons p t ih =>
        by_cases hp : p.1 = k
        · simp [alookup, hp, hka, ih]
        · simp [alookup, hp, ih]
    exact this el.attrs

theorem alookup_removeAttribute_self (el : Element) (k : String) :
    alookup k (removeAttribute el k).attrs = none := by
  unfold removeAttribute
  simp only
  induction el.attrs with
  | nil => simp [alookup]
  | cons p t ih =>
    by_cases hp : p.1 = k
    · simp [List.filter, hp, ih]
    · simp [List.filter, alookup, hp, ih]

theorem alookup_removeAttribute_ne (el : Element) (k a : String) (h : a ≠ k) :
    alookup a (removeAttribute el k).attrs = alookup a el.attrs := by
  have hka : ¬ k = a := fun hh => h hh.symm
  unfold removeAttribute
  simp only
  induction el.attrs with
  | nil => simp
  | cons p t ih =>
    by_cases hp : p.1 = k
    · simp [List.filter, alookup, hp, hka, ih]
    · simp [List.filter, alookup, hp, ih]

theorem setAttribute_tag (el : Element) (k v : String) :
    (setAttribute el k v).tag = el.tag := by
  unfold setAttribute
  cases (alookup k el.attrs).isSome <;> simp

theorem setAttribute_content (el : Element) (k v : String) :
    (setAttribute el k v).content = el.content := by
  unfold setAttribute
  cases (alookup k el.attrs).isSome <;> simp

theorem relocateElement_tag (r : Router) (tag attr : String) (el : Element) :
    (relocateElement r tag attr el).tag = el.tag := by
  unfold relocateElement
  by_cases h : el.tag = tag
  · by_cases hl : linkPattern_test (jsString (getAttribute el attr))
    · simp [h, hl, setAttribute_tag]
    · simp [h, hl]
  · simp [h]

theorem relocateElement_content (r : Router) (tag attr : String) (el : Element) :
    (relocateElement r tag attr el).content = el.content := by
  unfold relocateElement
  by_cases h : el.tag = tag
  · by_cases hl : linkPattern_test (jsString (getAttribute el attr))
    · simp [h, hl, setAttribute_content]
    · simp [h, hl]
  · simp [h]

theorem patchElement_tag (cs : String) (el : Element) :
    (patchElement cs el).tag = el.tag := by
  unfold patchElement removeAttribute
  by_cases h : (el.tag = "script" && configSrcPattern_test (jsString (getAttribute el "src"))) = true <;>
    simp [h]

theorem relocateElement_other_tag (r : Router) (tag attr : String) (el : Element)
    (h : el.tag ≠ tag) : relocateElement r tag attr el = el := by
  unfold relocateElement
  simp [h]

theorem patchElement_other_tag (cs : String) (el : Element)
    (h : el.tag ≠ "script") : patchElement cs el = el := by
  unfold patchElement
  simp [h]

theorem relocateElement_attr_ne (r : Router) (tag attr a : String) (el : Element)
    (h : a ≠ attr) :
    alookup a (relocateElement r tag attr el).attrs = alookup a el.attrs := by
  unfold relocateElement
  by_cases ht : el.tag = tag <;> simp [ht]
  by_cases hl : linkPattern_test (jsString (getAttribute el attr)) <;>
    simp [hl, alookup_setAttribute_ne _ _ _ _ h]

theorem patchElement_attr_ne (cs : String) (a : String) (el : Element)
    (h : a ≠ "src") :
    alookup a (patchElement cs el).attrs = alookup a el.attrs := by
  unfold patchElement
  by_cases hc : (el.tag = "script" && configSrcPattern_test (jsString (getAttribute el "src"))) = true <;>
    simp [hc]
  exact alookup_removeAttribute_ne _ _ _ h

/-- The three document passes of `transform` amount to one map of
`transformElement` over the elements. -/
theorem transform_elements_eq_map (r : Router) (app : String) (d : Doc) (config : JObj) :
    (transform r app d config).elements = d.elements.map (transformElement r config) := by
  unfold transform patchConfig relocate transformElement
  simp [List.map_map, Function.comp]

/-! ## Claims -/

/-- C1 (code_bug): the claim — and the repository's own tests — say that a
failed upstream fetch leaves the cache slot empty so that a second
`route` call fetches afresh (the attempt counter strictly increases).
The code instead caches the rejected promise forever: with a config
fetch that always fails, two successive `route("/test/")` calls both
return 500, the lifetime fetch list is exactly the three construction
URLs, and the config URL is requested exactly once in total. -/
theorem C1_code_behavior :
    (runRoutes ⟨"https://cdn/", "https://api/"⟩ (fun _ => ⟨[]⟩) (fun _ => "")
        (Router.construct ⟨"https://cdn/", "https://api/"⟩
          ⟨some ⟨["test"], "test", []⟩, none,
            fun a => if a = "test" then some "<html>" else none⟩)
        [("/test/", defaultOptions), ("/test/", defaultOptions)]).1 =
      [internalErrorResponse, internalErrorResponse] ∧
    lifetimeFetches ⟨"https://cdn/", "https://api/"⟩
        ⟨some ⟨["test"], "test", []⟩, none,
          fun a => if a = "test" then some "<html>" else none⟩
        (fun _ => ⟨[]⟩) (fun _ => "")
        [("/test/", defaultOptions), ("/test/", defaultOptions)] =
      ["https://cdn/manifest.json", "https://api/config.json", "https://cdn/test/index.html"] ∧
    (lifetimeFetches ⟨"https://cdn/", "https://api/"⟩
        ⟨some ⟨["test"], "test", []⟩, none,
          fun a => if a = "test" then some "<html>" else none⟩
        (fun _ => ⟨[]⟩) (fun _ => "")
        [("/test/", defaultOptions), ("/test/", defaultOptions)]).count
      "https://api/config.json" = 1 := by
  decide

/-- C2 (code_bug): the claim — and the repository's own tests — say a
request for `/<app>/<sub>` 301-redirects to `/<app>/#<sub>`.  The code
has no sub-path branch at all: with a fully healthy upstream,
`route("/test/sub-path")` returns a 200 content response and carries no
Location header. -/
theorem C2_code_behavior :
    (route ⟨"https://cdn/", "https://api/"⟩ (fun _ => ⟨[]⟩) (fun _ => "")
        (Router.construct ⟨"https://cdn/", "https://api/"⟩
          ⟨some ⟨["test"], "test", []⟩, some [],
            fun a => if a = "test" then some "<html>" else none⟩)
        "/test/sub-path" defaultOptions).statusCode = 200 ∧
    alookup "Location"
      (route ⟨"https://cdn/", "https://api/"⟩ (fun _ => ⟨[]⟩) (fun _ => "")
        (Router.construct ⟨"https://cdn/", "https://api/"⟩
          ⟨some ⟨["test"], "test", []⟩, some [],
            fun a => if a = "test" then some "<html>" else none⟩)
        "/test/sub-path" defaultOptions).headers = none := by
  decide

/-- C4 (code_bug): the claim — and the repository's own tests, which
expect a per-app `_indexes` map — say index pages are fetched lazily,
per app, with independent failures.  The code fetches every index
eagerly at construction through one `Promise.all`: with apps `a` and `b`
where only `b`'s index fails, both index URLs are requested before any
route call, and `route("/a/")` still returns 500 because the combined
indexes promise is rejected. -/
theorem C4_code_behavior :
    Router.constructionFetches ⟨"https://cdn/", "https://api/"⟩
        ⟨some ⟨["a", "b"], "a", []⟩, some [],
          fun a => if a = "a" then some "<html>" else none⟩ =
      ["https://cdn/manifest.json", "https://api/config.json",
       "https://cdn/a/index.html", "https://cdn/b/index.html"] ∧
    (route ⟨"https://cdn/", "https://api/"⟩ (fun _ => ⟨[]⟩) (fun _ => "")
        (Router.construct ⟨"https://cdn/", "https://api/"⟩
          ⟨some ⟨["a", "b"], "a", []⟩, some [],
            fun a => if a = "a" then some "<html>" else none⟩)
        "/a/" defaultOptions).statusCode = 500 := by
  decide

/-- C5 (code_bug): the claim — and the repository's own tests, which
count 3 attempts per round and treat `ok: false` responses as failures —
say `_fetch` retries up to 3 times and rejects non-success statuses.
The code performs exactly one GET per `_fetch` call and never reads
`res.ok`/`res.status`: a status-500 response's body is returned as a
success, and a transport failure surfaces after the single attempt. -/
theorem C5_code_behavior :
    fetchOne (some ⟨false, 500, "Access Denied"⟩) = some "Access Denied" ∧
    fetchOne none = none ∧
    fetchOneTrace "https://api/config.json" = ["https://api/config.json"] ∧
    (fetchOneTrace "https://api/config.json").length = 1 ∧
    (fetchOneTrace "https://api/config.json").length ≠ 3 := by
  decide

/-- C10 (confirmed): every upstream fetch of an instance is initiated by
the constructor — the manifest, the config, and (once the manifest is
available) one index per listed app — and no `route` call, whatever
paths and however many, performs any fetch or alters the cached state,
so the lifetime fetch list equals the construction fetch list. -/
theorem C10_fetches_fixed_at_construction (r : Router) (parse : String → Doc)
    (ser : Doc → String) (u : Upstream) (calls : List (String × RouteOptions))
    (m : Manifest) :
    (runRoutes r parse ser (r.construct u) calls).2.2 = [] ∧
    (runRoutes r parse ser (r.construct u) calls).2.1 = r.construct u ∧
    lifetimeFetches r u parse ser calls = r.constructionFetches u ∧
    (u.manifest = some m →
      r.constructionFetches u = r.manifestUrl :: r.configUrl :: m.apps.map r.indexUrl) := by
  have key : ∀ (st : RouterState) (cs : List (String × RouteOptions)),
      (runRoutes r parse ser st cs).2.2 = ([] : List String) ∧
      (runRoutes r parse ser st cs).2.1 = st := by
    intro st cs
    induction cs generalizing st with
    | nil => simp [runRoutes]
    | cons c cs ih => simp [runRoutes, routeCall, ih]
  refine ⟨(key _ _).1, (key _ _).2, ?_, ?_⟩
  · unfold lifetimeFetches
    rw [(key _ _).1]
    simp
  · intro hm
    simp [Router.constructionFetches, hm]

/-- Witness for C10 at a concrete router, upstream and call list. -/
theorem C10_witness :
    (⟨some ⟨["test"], "test", []⟩, some [], fun _ => some "<html>"⟩ : Upstream).manifest =
      some ⟨["test"], "test", []⟩ ∧
    Router.constructionFetches ⟨"https://cdn/", "https://api/"⟩
        ⟨some ⟨["test"], "test", []⟩, some [], fun _ => some "<html>"⟩ =
      Router.manifestUrl ⟨"https://cdn/", "https://api/"⟩ ::
        Router.configUrl ⟨"https://cdn/", "https://api/"⟩ ::
        (["test"].map (Router.indexUrl ⟨"https://cdn/", "https://api/"⟩)) :=
  ⟨rfl,
    (C10_fetches_fixed_at_construction ⟨"https://cdn/", "https://api/"⟩
      (fun _ => ⟨[]⟩) (fun _ => "")
      ⟨some ⟨["test"], "test", []⟩, some [], fun _ => some "<html>"⟩
      [] ⟨["test"], "test", []⟩).2.2.2 rfl⟩

/-- C3 counterexample: an upstream config body that itself carries an
`assets_url` key overrides the router's injected value — `Object.assign`
puts the router's origins first, as overridable defaults — so the
effective config does not match the configured origin. -/
theorem C3_counterexample :
    alookup "assets_url"
        (effectiveConfig "test"
          (Router.mergedConfig ⟨"https://cdn/", "https://api/"⟩
            [("assets_url", JVal.str "https://evil/")])
          []) = some (JVal.str "https://evil/") ∧
    some (JVal.str "https://evil/") ≠ some (JVal.str "https://cdn/") ∧
    alookup "api_url"
        (effectiveConfig "test"
          (Router.mergedConfig ⟨"https://cdn/", "https://api/"⟩ [])
          [("api_url", JVal.str "https://evil2/")]) = some (JVal.str "https://evil2/") ∧
    some (JVal.str "https://evil2/") ≠ some (JVal.str "https://api/") := by
  decide

/-- C3 (corrected): the effective config contains `assets_url` and
`api_url` equal to the router's configured origins whenever neither the
upstream global config nor `manifest.config` supplies those keys itself;
upstream-supplied values take precedence over the injected ones. -/
theorem C3_amended (r : Router) (app : String) (uc mc : JObj)
    (h1 : alookup "assets_url" uc = none) (h2 : alookup "assets_url" mc = none)
    (h3 : alookup "api_url" uc = none) (h4 : alookup "api_url" mc = none) :
    alookup "assets_url" (effectiveConfig app (r.mergedConfig uc) mc) =
      some (JVal.str r.assetsUrl) ∧
    alookup "api_url" (effectiveConfig app (r.mergedConfig uc) mc) =
      some (JVal.str r.apiUrl) := by
  unfold effectiveConfig Router.mergedConfig
  constructor
  · simp [alookup_jsAssign, h1, h2, alookup]
  · simp [alookup_jsAssign, h3, h4, alookup]

/-- Witness for C3 at concrete upstream and manifest configs without the
reserved keys. -/
theorem C3_amended_witness :
    alookup "assets_url" ([] : JObj) = none ∧
    alookup "api_url" ([] : JObj) = none ∧
    alookup "assets_url"
        (effectiveConfig "app"
          (Router.mergedConfig ⟨"https://cdn/", "https://api/"⟩ []) []) =
      some (JVal.str "https://cdn/") ∧
    alookup "api_url"
        (effectiveConfig "app"
          (Router.mergedConfig ⟨"https://cdn/", "https://api/"⟩ []) []) =
      some (JVal.str "https://api/") :=
  ⟨rfl, rfl,
    (C3_amended ⟨"https://cdn/", "https://api/"⟩ "app" [] [] rfl rfl rfl rfl).1,
    (C3_amended ⟨"https://cdn/", "https://api/"⟩ "app" [] [] rfl rfl rfl rfl).2⟩

/-- C6 counterexample: when no shared-cache value is supplied the join
still emits the separator for the undefined entry, so client-cacheable
404s and 500s carry "max-age=<n>, " (trailing ", "), not exactly
"max-age=<n>"; and the shared-cache directive the code emits is spelled
"s-max-age", not "s-maxage". -/
theorem C6_counterexample :
    createCacheResponse 10 none = "max-age=10, " ∧
    ("max-age=10, " : String) ≠ "max-age=10" ∧
    alookup "Cache-Control" internalErrorResponse.headers = some "max-age=10, " ∧
    createCacheResponse 60 (some 300) = "max-age=60, s-max-age=300" ∧
    ("max-age=60, s-max-age=300" : String) ≠ "max-age=60, s-maxage=300" := by
  decide

/-- C6 (corrected): the Cache-Control value always maps over both keys
`max-age` and `s-max-age` and joins with ", ": with a shared-cache value
it is "max-age=<c>, s-max-age=<s>" (directive spelled `s-max-age`), and
without one the undefined entry still contributes an empty string, so
the value is "max-age=<c>, " with a trailing separator. -/
theorem C6_amended (n m : Nat) :
    createCacheResponse n none = "max-age=" ++ toString n ++ ", " ∧
    createCacheResponse n (some m) =
      "max-age=" ++ toString n ++ ", s-max-age=" ++ toString m := by
  constructor
  · unfold createCacheResponse jsJoin
    simp [List.foldl]
  · unfold createCacheResponse jsJoin
    simp [List.foldl, String.append_assoc]
    congr 1

/-- C7 counterexample: "ftp://x/a.js" is an absolute URL (it has a
scheme), yet the relocation pass rewrites it, because `linkPattern` only
exempts values starting with "/", "http:/" or "https:/". -/
theorem C7_counterexample :
    strStartsWith "ftp://x/a.js" "ftp:" = true ∧
    getAttribute
        (relocateElement ⟨"https://cdn/", "https://api/"⟩ "script" "src"
          ⟨"script", [("src", "ftp://x/a.js")], ""⟩) "src" =
      some "https://cdn/ftp://x/a.js" ∧
    some ("https://cdn/ftp://x/a.js") ≠ some "ftp://x/a.js" := by
  decide

/-- C7 (corrected): in the relocation pass, an attribute value is left
unchanged exactly when it starts with "/" (root- or protocol-relative)
or, case-insensitively, with "http:/" or "https:/"; every other value —
including absolute URLs with any other scheme — is rewritten to the
asset base URL concatenated with the original value. -/
theorem C7_amended (r : Router) (tag attr : String) (el : Element) (s : String)
    (h1 : el.tag = tag) (h2 : getAttribute el attr = some s) :
    getAttribute (relocateElement r tag attr el) attr =
      some (if strStartsWith s "/" || strStartsWith (strToLower s) "http:/" ||
              strStartsWith (strToLower s) "https:/"
            then s else r.assetsUrl ++ s) := by
  have hjs : jsString (getAttribute el attr) = s := by rw [h2]; rfl
  unfold relocateElement linkPattern_test
  rw [hjs]
  by_cases hc : (strStartsWith s "/" || strStartsWith (strToLower s) "http:/" ||
      strStartsWith (strToLower s) "https:/") = true
  · simp [h1, hc, h2]
  · simp only [Bool.not_eq_true] at hc
    simp [h1, hc, getAttribute, alookup_setAttribute_self]

/-- Witness for C7 at a concrete truly relative script source. -/
theorem C7_amended_witness :
    (⟨"script", [("src", "js/app.js")], ""⟩ : Element).tag = "script" ∧
    getAttribute (⟨"script", [("src", "js/app.js")], ""⟩ : Element) "src" =
      some "js/app.js" ∧
    getAttribute
        (relocateElement ⟨"https://cdn/", "https://api/"⟩ "script" "src"
          ⟨"script", [("src", "js/app.js")], ""⟩) "src" =
      some (if strStartsWith "js/app.js" "/" ||
              strStartsWith (strToLower "js/app.js") "http:/" ||
              strStartsWith (strToLower "js/app.js") "https:/"
            then "js/app.js" else "https://cdn/" ++ "js/app.js") :=
  ⟨rfl, rfl,
    C7_amended ⟨"https://cdn/", "https://api/"⟩ "script" "src"
      ⟨"script", [("src", "js/app.js")], ""⟩ "js/app.js" rfl rfl⟩

/-- C8 counterexample: `configSrcPattern` is unanchored, so a script
whose src is "a/config.json" — which does not end in "/config.js" — is
still rewritten into the inline configuration script. -/
theorem C8_counterexample :
    strEndsWith "a/config.json" "/config.js" = false ∧
    patchConfig "app" ⟨[⟨"script", [("src", "a/config.json")], ""⟩]⟩ [] =
      ⟨[⟨"script", [], "_app_config = \x7b\x7d;"⟩]⟩ := by
  decide

/-- C8 (corrected): exactly the script elements whose src value contains
"/config.js" anywhere (not only as a suffix) are rewritten — src removed
and content set to the `_app_config = <json>;` assignment — and every
other element is left unchanged. -/
theorem C8_amended (app : String) (d : Doc) (config : JObj) :
    (patchConfig app d config).elements =
      d.elements.map (patchElement (configAssignment config)) ∧
    (∀ el : Element, el.tag = "script" →
      configSrcPattern_test (jsString (getAttribute el "src")) = true →
      getAttribute (patchElement (configAssignment config) el) "src" = none ∧
      (patchElement (configAssignment config) el).content = configAssignment config) ∧
    (∀ el : Element,
      configSrcPattern_test (jsString (getAttribute el "src")) = false →
      patchElement (configAssignment config) el = el) ∧
    (∀ el : Element, el.tag ≠ "script" →
      patchElement (configAssignment config) el = el) := by
  refine ⟨rfl, ?_, ?_, ?_⟩
  · intro el htag hsrc
    unfold patchElement
    simp only [htag, hsrc, Bool.and_self, if_true]
    exact ⟨alookup_removeAttribute_self el "src", rfl⟩
  · intro el hsrc
    unfold patchElement
    simp [hsrc]
  · intro el htag
    exact patchElement_other_tag _ _ htag

/-- Witness for C8 at a concrete config-loader script element. -/
theorem C8_amended_witness :
    (⟨"script", [("src", "home/config.js")], ""⟩ : Element).tag = "script" ∧
    configSrcPattern_test
        (jsString (getAttribute (⟨"script", [("src", "home/config.js")], ""⟩ : Element) "src")) =
      true ∧
    getAttribute
        (patchElement (configAssignment [])
          ⟨"script", [("src", "home/config.js")], ""⟩) "src" = none ∧
    (patchElement (configAssignment [])
        ⟨"script", [("src", "home/config.js")], ""⟩).content = configAssignment [] :=
  ⟨rfl, by decide,
    ((C8_amended "app" ⟨[]⟩ []).2.1 ⟨"script", [("src", "home/config.js")], ""⟩
      rfl (by decide)).1,
    ((C8_amended "app" ⟨[]⟩ []).2.1 ⟨"script", [("src", "home/config.js")], ""⟩
      rfl (by decide)).2⟩

/-- C9 counterexample: a script element with no src attribute at all is
not preserved: `getAttribute` yields null, the JS coercion makes the
test run on "null", and the element gains src = assetsUrl + "null". -/
theorem C9_counterexample :
    transform ⟨"https://cdn/", "https://api/"⟩ "app" ⟨[⟨"script", [], "x"⟩]⟩ [] =
      ⟨[⟨"script", [("src", "https://cdn/null")], "x"⟩]⟩ ∧
    (⟨[⟨"script", [("src", "https://cdn/null")], "x"⟩]⟩ : Doc) ≠ ⟨[⟨"script", [], "x"⟩]⟩ := by
  decide

/-- C9 (corrected): `transform` is the element-wise composition of the
two relocation passes and the config pass, preserving element count and
order; it preserves every element's tag, every attribute other than
href/src, leaves elements that are neither link nor script entirely
unchanged, and preserves the content of every non-script element — but a
link or script element lacking its relevant attribute gains it with
value assetsUrl ++ "null". -/
theorem C9_amended (r : Router) (app : String) (d : Doc) (config : JObj) :
    (transform r app d config).elements = d.elements.map (transformElement r config) ∧
    ∀ el : Element,
      (transformElement r config el).tag = el.tag ∧
      (∀ a : String, a ≠ "href" → a ≠ "src" →
        alookup a (transformElement r config el).attrs = alookup a el.attrs) ∧
      (el.tag ≠ "link" → el.tag ≠ "script" → transformElement r config el = el) ∧
      (el.tag ≠ "script" → (transformElement r config el).content = el.content) := by
  refine ⟨transform_elements_eq_map r app d config, fun el => ⟨?_, ?_, ?_, ?_⟩⟩
  · unfold transformElement
    rw [patchElement_tag, relocateElement_tag, relocateElement_tag]
  · intro a ha hs
    unfold transformElement
    rw [patchElement_attr_ne _ _ _ hs, relocateElement_attr_ne _ _ _ _ _ hs,
        relocateElement_attr_ne _ _ _ _ _ ha]
  · intro hl hsc
    unfold transformElement
    rw [relocateElement_other_tag _ _ _ _ hl, relocateElement_other_tag _ _ _ _ hsc,
        patchElement_other_tag _ _ hsc]
  · intro hsc
    unfold transformElement
    have t2 : (relocateElement r "script" "src" (relocateElement r "link" "href" el)).tag =
        el.tag := by
      rw [relocateElement_tag, relocateElement_tag]
    rw [patchElement_other_tag _ _ (by rw [t2]; exact hsc),
        relocateElement_content, relocateElement_content]

/-- Witness for C9 at a concrete script element and a non-relocated
attribute. -/
theorem C9_amended_witness :
    ("class" : String) ≠ "href" ∧ ("class" : String) ≠ "src" ∧
    alookup "class"
        (transformElement ⟨"https://cdn/", "https://api/"⟩ []
          ⟨"script", [("class", "x"), ("src", "/a.js")], "y"⟩).attrs =
      alookup "class" (⟨"script", [("class", "x"), ("src", "/a.js")], "y"⟩ : Element).attrs :=
  ⟨by decide, by decide,
    ((C9_amended ⟨"https://cdn/", "https://api/"⟩ "app" ⟨[]⟩ []).2
        ⟨"script", [("class", "x"), ("src", "/a.js")], "y"⟩).2.1
      "class" (by decide) (by decide)⟩

end IndexRouter
